import Mathlib

/-!
Verification of the `cfo` client library (`cfo/utils.py`), a thin Python
HTTP client for the Salo Sciences / California Forest Observatory REST API.

The Python module is shallowly embedded:

* pure string helpers (`construct_asset_id`, `check`, `validate_geography`)
  become Lean functions over `String` / `Int` / `ℚ`;
* Python `None`-typed optional parameters become `Option` arguments;
* the HTTP layer is abstracted by response oracles: each embedded endpoint
  method takes the responses the server would return and additionally
  records the trace of sub-requests it issues;
* Python exceptions (the bare `raise` statements, uncaught library errors)
  are modelled with `Except Unit` / explicit error flags;
* Python dicts built by the code are modelled as insertion-ordered
  association lists (`List (String × String)`), updated in place on key
  collision, matching CPython dict semantics.

Strings are manipulated through their character lists (`String.data`), with
structural-recursive helpers mirroring the Python `str` operations used by
the source (`"-".join`, `str.replace`, `str.split`, `f"{n:04d}"`).
-/

namespace CFO

/-! ## String helpers (Python `str` operations used by `utils.py`) -/

/-- The character for the decimal digit `n % 10` (models Python base-10
integer rendering, one digit at a time). -/
def digitChar (n : Nat) : Char := Char.ofNat (48 + n % 10)

/-- Fuel-indexed base-10 digit expansion; with fuel `n + 1` this renders
`n` exactly as Python `str(n)` does for non-negative `n`. -/
def natDigits : Nat → Nat → List Char
  | 0, _ => []
  | fuel + 1, n => if n < 10 then [digitChar n] else natDigits fuel (n / 10) ++ [digitChar n]

/-- Left-pad a character list with zeros to width `w`
(the padding step of Python `f"{n:0wd}"`). -/
def padZeros (s : List Char) (w : Nat) : List Char :=
  List.replicate (w - s.length) '0' ++ s

/-- Python `f"{n:0wd}"`: sign first, then zero-padding to total width `w`. -/
def pyZfill (n : Int) (w : Nat) : List Char :=
  if n < 0 then '-' :: padZeros (natDigits (n.natAbs + 1) n.natAbs) (w - 1)
  else padZeros (natDigits (n.toNat + 1) n.toNat) w

/-- Python `"-".join(fields)` on character lists. -/
def joinDash : List (List Char) → List Char
  | [] => []
  | [x] => x
  | x :: y :: rest => x ++ '-' :: joinDash (y :: rest)

/-- Python `s.replace(find, "%")` for the one-character needles `"*"` and
`"?"` used by `construct_asset_id`: a character map. -/
def wildcardSubst (find : Char) (s : List Char) : List Char :=
  s.map fun x => if x = find then '%' else x

/-- Python `s.split("-")` on character lists (separator is a single
character, every occurrence splits, empty pieces are kept). -/
def splitDashChars : List Char → List (List Char)
  | [] => [[]]
  | c :: rest =>
    let r := splitDashChars rest
    if c = '-' then [] :: r
    else
      match r with
      | [] => [[c]]
      | h :: t => (c :: h) :: t

/-- `String`-level wrapper of `splitDashChars`, used to state the
"six hyphen-joined fields" invariant. -/
def splitDash (s : String) : List String :=
  (splitDashChars s.data).map List.asString

/-! ## `construct_asset_id` (utils.py lines 128-176) -/

/-- The `if <arg> is None: <arg> = "*"` handling of the string-typed
arguments of `construct_asset_id`. -/
def optField (o : Option String) : List Char :=
  match o with | none => ['*'] | some s => s.data

/-- The year argument handling of `construct_asset_id`:
`"*"` if unset, else `f"{year:04d}"`. -/
def optYear (o : Option Int) : List Char :=
  match o with | none => ['*'] | some y => pyZfill y 4

/-- The resolution argument handling of `construct_asset_id`:
`"*"` if unset, else `f"{resolution:05d}m"`. -/
def optRes (o : Option Int) : List Char :=
  match o with | none => ['*'] | some r => pyZfill r 5 ++ ['m']

/-- Embedding of `construct_asset_id`: `None` arguments become `"*"`,
`year` formats as `f"{year:04d}"`, `resolution` as `f"{resolution:05d}m"`,
the six fields are hyphen-joined, then `"*"` and `"?"` are each replaced
by the SQL wildcard `"%"`. -/
def construct_asset_id (geography : Option String) (category : Option String)
    (metric : Option String) (year : Option Int) (timeOfYear : Option String)
    (resolution : Option Int) : String :=
  let asset_id := joinDash
    [optField geography, optField category, optField metric, optYear year,
     optField timeOfYear, optRes resolution]
  let asset_id := wildcardSubst '*' asset_id
  let asset_id := wildcardSubst '?' asset_id
  asset_id.asString

/-- C8: `construct_asset_id` with all six arguments unset returns
`"%-%-%-%-%-%"`, and with `geography="CA"`, `year=2020`, `resolution=10`
returns `"CA-%-%-2020-%-00010m"`. -/
theorem construct_asset_id_examples :
    construct_asset_id none none none none none none = "%-%-%-%-%-%" ∧
    construct_asset_id (some ("CA")) none none (some 2020) none (some 10) =
      "CA-%-%-2020-%-00010m" := by
  constructor <;> rfl

/-! ## HTTP responses and `check` (utils.py lines 179-191) -/

/-- An HTTP response as the embedded client observes it: the status code,
the `"link"` field of its JSON body (the only JSON field `fetch` reads),
and its raw content (used as the failure message by `check`). -/
structure Response where
  status_code : Nat
  json_link : String
  content : String
deriving DecidableEq, Repr

/-- Embedding of `check`: status 200 yields `(True, "slugs rule")`,
anything else `(False, response.content)`. -/
def check (response : Response) : Bool × String :=
  if response.status_code = 200 then (true, "slugs rule")
  else (false, response.content)

/-! ## `validate_geography` (utils.py lines 231-244) -/

/-- Embedding of `validate_geography`: longitude must lie in
`[-180, 180]` and latitude in `[-90, 90]`.  Coordinates are modelled
as rationals. -/
def validate_geography (lon lat : ℚ) : Bool :=
  let lon_valid := -180 ≤ lon ∧ lon ≤ 180
  let lat_valid := -90 ≤ lat ∧ lat ≤ 90
  let valid := lon_valid ∧ lat_valid
  if ¬ (decide valid) then false else true

/-! ## `pixel_pick` (utils.py lines 583-610) -/

/-- A network sub-request issued by an embedded endpoint method. -/
inductive Req where
  | search (asset_id : String)
  | pick (asset_id : String) (lon lat : ℚ)
deriving DecidableEq

/-- The pixel-pick endpoint's response: a status code and the `"val"`
field of its JSON body. -/
structure PickResponse where
  status_code : Nat
  val : Int
deriving DecidableEq, Repr

/-- Embedding of `API.pixel_pick`.  `searchResp` is the response the
search endpoint returns for the asset-id pre-validation, `pickResp` the
response of the pixel-pick endpoint.  Returns the value the Python
method returns (`none` models Python `None`) paired with the trace of
sub-requests issued, in order.  Note that after the pixel-pick request
the source tests `if not success:` where `success` still holds the
result of the earlier search `check` — the pixel-pick response's own
status is never consulted. -/
def pixel_pick (asset_id : String) (lon lat : ℚ) (searchResp : Response)
    (pickResp : PickResponse) : Option Int × List Req :=
  if ¬ validate_geography lon lat then
    (none, [])
  else
    let (success, _msg) := check searchResp
    if ¬ success then
      (none, [Req.search asset_id])
    else
      -- the `if not success:` below re-reads the search check's flag
      if ¬ success then
        (none, [Req.search asset_id, Req.pick asset_id lon lat])
      else
        (some pickResp.val, [Req.search asset_id, Req.pick asset_id lon lat])

/-- C7: out-of-range coordinates make `pixel_pick` return `None` with no
network request issued; in-range coordinates first issue a search request
validating the asset id, return `None` if it fails, and only then issue
the pixel-pick request. -/
theorem pixel_pick_validates_before_requests (asset_id : String) (lon lat : ℚ)
    (searchResp : Response) (pickResp : PickResponse) :
    pixel_pick asset_id lon lat searchResp pickResp =
      if -180 ≤ lon ∧ lon ≤ 180 ∧ -90 ≤ lat ∧ lat ≤ 90 then
        (if searchResp.status_code = 200 then
          (some pickResp.val, [Req.search asset_id, Req.pick asset_id lon lat])
        else
          (none, [Req.search asset_id]))
      else (none, []) := by
  unfold pixel_pick validate_geography check
  by_cases hlon₁ : -180 ≤ lon <;> by_cases hlon₂ : lon ≤ 180 <;>
    by_cases hlat₁ : -90 ≤ lat <;> by_cases hlat₂ : lat ≤ 90 <;>
    by_cases hs : searchResp.status_code = 200 <;>
    simp [hlon₁, hlon₂, hlat₁, hlat₂, hs]

/-- C9: for an in-range coordinate and a successfully validated asset id,
`pixel_pick` returns the pixel-pick response's `"val"` field whatever that
response's status code is: the stale `success` flag from the search check
is consulted, not the pixel-pick response. -/
theorem pixel_pick_ignores_pick_status (asset_id : String) (pickStatus : Nat)
    (v : Int) (link content : String) :
    pixel_pick asset_id 0 0 ⟨200, link, content⟩ ⟨pickStatus, v⟩ =
      (some v, [Req.search asset_id, Req.pick asset_id 0 0]) := by
  simp [pixel_pick, validate_geography, check]

/-! ## `list_fetch_types` and `list_geographies` (utils.py lines 296-324) -/

/-- Embedding of `API.list_fetch_types`. -/
def list_fetch_types : List String :=
  ["wms", "signed_url", "uri", "url", "wms_preview"]

/-- What `API.list_geographies` can return: the whole `PATHS["geography"]`
dictionary, one of its entries, or Python `None`. -/
inductive GeogResult (α : Type) where
  | fullDict (d : List (String × α))
  | entry (v : α)
  | pyNone
deriving DecidableEq

/-- Whether a `GeogResult` is the full geography dictionary. -/
def GeogResult.isFullDict {α : Type} : GeogResult α → Bool
  | .fullDict _ => true
  | _ => false

/-- First value bound to `k` in an association list (Python dict lookup). -/
def lookupKV {α : Type} : List (String × α) → String → Option α
  | [], _ => none
  | (k', v) :: rest, k => if k' = k then some v else lookupKV rest k

/-- The branch condition of `API.list_geographies` is `if type is None:`,
testing the Python builtin `type` — which is never `None` — instead of the
parameter `by`. -/
def typeIsNone : Bool := false

/-- Embedding of `API.list_geographies`.  `paths` stands for
`PATHS["geography"]` (loaded from the package's `paths.json`, a JSON
object, so its keys are strings); `by_` is the `by` parameter.  Because
the branch condition tests the builtin `type`, the dictionary branch is
dead: the method always evaluates `PATHS["geography"][by]`, whose
`KeyError` (raised in particular when `by` is `None`, since no JSON key
is `None`) is caught and turned into `None`. -/
def list_geographies {α : Type} (paths : List (String × α)) (by_ : Option String) :
    GeogResult α :=
  if typeIsNone then .fullDict paths
  else
    match by_ with
    | none => .pyNone
    | some k =>
      match lookupKV paths k with
      | some v => .entry v
      | none => .pyNone

/-- C10: `list_geographies` never returns the full geography dictionary;
with no argument it returns `None`, and with an argument it returns the
result of indexing the geography dictionary (or `None` on a missing key). -/
theorem list_geographies_never_full_dict {α : Type} (paths : List (String × α))
    (b : Option String) (k : String) :
    (list_geographies paths b).isFullDict = false ∧
    list_geographies paths none = GeogResult.pyNone ∧
    list_geographies paths (some k) =
      (match lookupKV paths k with
       | some v => GeogResult.entry v
       | none => GeogResult.pyNone) := by
  refine ⟨?_, rfl, rfl⟩
  cases b with
  | none => rfl
  | some k' =>
    simp only [list_geographies, typeIsNone, if_false, Bool.false_eq_true]
    cases lookupKV paths k' <;> rfl

/-! ## `fetch` (utils.py lines 481-581) -/

/-- Python `uri[5:]` by characters. -/
def pyDrop5 (s : String) : String := (s.data.drop 5).asString

/-- Python dict assignment `d[k] = v` on an insertion-ordered association
list: an existing key keeps its position, a new key is appended. -/
def insertKV : List (String × String) → String → String → List (String × String)
  | [], k, v => [(k, v)]
  | (k', v') :: rest, k, v =>
    if k' = k then (k, v) :: rest else (k', v') :: insertKV rest k v

/-- Python `x in l` for strings. -/
def containsStr (l : List String) (x : String) : Bool :=
  l.any fun y => y = x

/-- Python set inclusion `set(a) <= set(b)` for string lists. -/
def listSubset (a b : List String) : Bool :=
  a.all fun t => containsStr b t

/-- Python set equality `set(a) == set(b)` for string lists. -/
def setEqB (a b : List String) : Bool :=
  listSubset a b && listSubset b a

/-- The mutable locals of `API.fetch` (`responses`, `params`, `n_params`),
together with the trace of fetch sub-requests issued and an error flag
modelling a pending bare `raise`. -/
structure FetchSt where
  responses : List (String × String)
  params : List String
  n_params : Nat
  trace : List String
  err : Bool
deriving DecidableEq, Repr

/-- One boolean-flag block of `API.fetch` (the `if dl:` / `if wms:` /
`if gdal:` / `if bucket:` blocks): when the flag is set, issue the fetch
sub-request for `fetchType`, and on a 200 record the (possibly
transformed) link under `param`, append `param` to `params` and bump
`n_params`; on a non-200, `raise` (set the error flag).  A previously
raised error skips the block. -/
def flagStep (oracle : String → Response) (flag : Bool) (param fetchType : String)
    (tr : String → String) (st : FetchSt) : FetchSt :=
  if st.err then st
  else if flag then
    let response := oracle fetchType
    let st := { st with trace := st.trace ++ [fetchType] }
    let (success, _msg) := check response
    if success then
      { st with
        responses := insertKV st.responses param (tr response.json_link)
        params := st.params ++ [param]
        n_params := st.n_params + 1 }
    else { st with err := true }
  else st

/-- One iteration of the `for fetch_type in fetch_types:` loop of
`API.fetch`: like a flag block, but the response is keyed by the fetch
type itself and — as in the source — nothing is appended to `params`. -/
def typesStep (oracle : String → Response) (st : FetchSt) (fetchType : String) : FetchSt :=
  if st.err then st
  else
    let response := oracle fetchType
    let st := { st with trace := st.trace ++ [fetchType] }
    let (success, _msg) := check response
    if success then
      { st with
        responses := insertKV st.responses fetchType response.json_link
        n_params := st.n_params + 1 }
    else { st with err := true }

/-- The `for fetch_type in fetch_types:` loop. -/
def typesLoop (oracle : String → Response) (fetch_types : List String) (st : FetchSt) : FetchSt :=
  fetch_types.foldl (typesStep oracle) st

/-- What `API.fetch` returns: Python `None`, a bare link string, or the
`responses` dictionary. -/
inductive FetchOut where
  | pyNone
  | link (url : String)
  | dict (entries : List (String × String))
deriving DecidableEq, Repr

/-- Whether a `fetch` outcome is the multi-parameter dictionary. -/
def isDictOut : Except Unit FetchOut → Bool
  | .ok (.dict _) => true
  | _ => false

/-- The final `return` of `API.fetch`: with `n_params == 1` return
`responses[params[0]]` (an empty `params` or a missing key would raise),
otherwise return the `responses` dictionary. -/
def finishFetch (st : FetchSt) : Except Unit FetchOut × List String :=
  if st.err then (Except.error (), st.trace)
  else if st.n_params = 1 then
    match st.params.head? with
    | none => (Except.error (), st.trace)
    | some p =>
      match lookupKV st.responses p with
      | none => (Except.error (), st.trace)
      | some v => (Except.ok (.link v), st.trace)
  else (Except.ok (.dict st.responses), st.trace)

/-- Embedding of `API.fetch`.  `oracle` gives the fetch endpoint's
response for each requested fetch type.  Returns the method's result
(`Except.error` models an uncaught `raise`) paired with the ordered trace
of fetch sub-requests.  Mirrors the source: a default `dl = True` when
nothing is requested; the four boolean-flag blocks; then, for a non-empty
`fetch_types`, the validation `supported.intersection(set(fetch_types)) !=
supported` (note the direction: it demands every supported type be
present in `fetch_types`) which returns `None` before any loop request;
then the per-type loop and the final single-link-or-dictionary return. -/
def fetch (oracle : String → Response) (asset_id : String)
    (dl wms gdal bucket : Bool) (fetch_types : List String) :
    Except Unit FetchOut × List String :=
  let dl := if !(dl || wms || bucket || gdal) && fetch_types.isEmpty then true else dl
  let st := FetchSt.mk [] [] 0 [] false
  let st := flagStep oracle dl ("dl") ("signed_url") id st
  let st := flagStep oracle wms ("wms") ("wms") id st
  let st := flagStep oracle gdal ("gdal") ("uri") (fun uri => "/vsigs/" ++ pyDrop5 uri) st
  let st := flagStep oracle bucket ("bucket") ("uri") id st
  if st.err then (Except.error (), st.trace)
  else if fetch_types.isEmpty then finishFetch st
  else if setEqB (list_fetch_types.filter fun t => containsStr fetch_types t)
      list_fetch_types = false then
    (Except.ok .pyNone, st.trace)
  else finishFetch (typesLoop oracle fetch_types st)

/-- An oracle on which every sub-request succeeds with a distinct link. -/
def okOracle : String → Response := fun t => ⟨200, "link_" ++ t, "content"⟩

/-- The number of boolean link-type flags set in a `fetch` call. -/
def numFlags (dl wms gdal bucket : Bool) : Nat :=
  (if dl then 1 else 0) + (if wms then 1 else 0) +
    (if gdal then 1 else 0) + (if bucket then 1 else 0)

/-- C1: the fetch-type validation is inverted.  With all boolean flags
false, a `fetch_types` list containing the unsupported entry `"bogus"`
alongside all five supported types passes validation: six sub-requests
are issued (one for `"bogus"` itself) and a six-entry dictionary is
returned — not `None` with zero requests.  Conversely the all-supported
list `["wms"]` is rejected as "unsupported" and returns `None` with zero
requests. -/
theorem fetch_type_validation_inverted :
    fetch okOracle ("a") false false false false
        ["wms", "signed_url", "uri", "url", "wms_preview", "bogus"] =
      (Except.ok (FetchOut.dict
        [("wms", "link_wms"), ("signed_url", "link_signed_url"),
         ("uri", "link_uri"), ("url", "link_url"),
         ("wms_preview", "link_wms_preview"), ("bogus", "link_bogus")]),
       ["wms", "signed_url", "uri", "url", "wms_preview", "bogus"]) ∧
    fetch okOracle ("a") false false false false ["wms"] =
      (Except.ok FetchOut.pyNone, []) := by
  constructor <;> rfl

/-- C4: when every sub-request succeeds, `fetch` with exactly one link
type requested returns the bare link string (each of the four flags);
with `dl=True, wms=True` it returns the dictionary with exactly the keys
`"dl"` and `"wms"`; and with two or more flags set it returns a
dictionary. -/
theorem fetch_link_shapes (oracle : String → Response)
    (h : ∀ t, (oracle t).status_code = 200) (asset_id : String)
    (dl wms gdal bucket : Bool) (h2 : 2 ≤ numFlags dl wms gdal bucket) :
    fetch oracle asset_id true false false false [] =
      (Except.ok (FetchOut.link (oracle ("signed_url")).json_link), ["signed_url"]) ∧
    fetch oracle asset_id false true false false [] =
      (Except.ok (FetchOut.link (oracle ("wms")).json_link), ["wms"]) ∧
    fetch oracle asset_id false false true false [] =
      (Except.ok (FetchOut.link ("/vsigs/" ++ pyDrop5 (oracle ("uri")).json_link)), ["uri"]) ∧
    fetch oracle asset_id false false false true [] =
      (Except.ok (FetchOut.link (oracle ("uri")).json_link), ["uri"]) ∧
    fetch oracle asset_id true true false false [] =
      (Except.ok (FetchOut.dict
        [("dl", (oracle ("signed_url")).json_link), ("wms", (oracle ("wms")).json_link)]),
       ["signed_url", "wms"]) ∧
    isDictOut (fetch oracle asset_id dl wms gdal bucket []).1 = true := by
  refine ⟨?_, ?_, ?_, ?_, ?_, ?_⟩
  · simp [fetch, flagStep, finishFetch, check, h, insertKV, lookupKV]
  · simp [fetch, flagStep, finishFetch, check, h, insertKV, lookupKV]
  · simp [fetch, flagStep, finishFetch, check, h, insertKV, lookupKV]
  · simp [fetch, flagStep, finishFetch, check, h, insertKV, lookupKV]
  · simp [fetch, flagStep, finishFetch, check, h, insertKV, lookupKV]
  · cases dl <;> cases wms <;> cases gdal <;> cases bucket <;>
      simp [numFlags] at h2 <;>
      simp [fetch, flagStep, finishFetch, isDictOut, check, h, insertKV, lookupKV]

/-- Witness for C4 at a concrete oracle and concrete flags. -/
theorem fetch_link_shapes_witness :
    fetch okOracle ("a") true true false false [] =
      (Except.ok (FetchOut.dict [("dl", "link_signed_url"), ("wms", "link_wms")]),
       ["signed_url", "wms"]) :=
  Eq.trans
    ((fetch_link_shapes okOracle (fun _ => rfl) "a" true true false false
      (by decide)).2.2.2.2.1)
    (by rfl)

/-! ## Token cache (`read_token_file` / `write_token_file`, utils.py
lines 194-212) -/

/-- The local file system, as a map from paths to byte contents. -/
def FileSys : Type := String → Option (List Nat)

/-- The gzip codec used by the token cache (Python's `gzip` module),
abstracted as a pair of byte-list functions. -/
structure GzipModel where
  compress : List Nat → List Nat
  decompress : List Nat → List Nat

/-- Python `token.encode("utf-8")`: for code points below 128 (the
printable-ASCII tokens of the claim) each character is one byte equal to
its code point. -/
def pyEncodeAscii (s : String) : List Nat := s.data.map Char.toNat

/-- Python `bytes.decode()` for ASCII byte sequences. -/
def pyDecodeAscii (bs : List Nat) : String := (bs.map fun b => Char.ofNat b).asString

/-- Embedding of `write_token_file`: gzip-compress the UTF-8 encoding of
the token and store it at `path`. -/
def write_token_file (gz : GzipModel) (token : String) (path : String) (fs : FileSys) :
    FileSys :=
  fun p => if p = path then some (gz.compress (pyEncodeAscii token)) else fs p

/-- Embedding of `read_token_file`: decompress the bytes at `path` and
decode them; `none` when the file is absent. -/
def read_token_file (gz : GzipModel) (path : String) (fs : FileSys) : Option String :=
  (fs path).map fun bs => pyDecodeAscii (gz.decompress bs)

/-- C6: reading the token file immediately after writing token `t`
returns `t` exactly, for any printable-ASCII token and any gzip codec on
which decompression inverts compression. -/
theorem token_file_roundtrip (gz : GzipModel)
    (hgz : ∀ bs, gz.decompress (gz.compress bs) = bs) (token : String)
    (hascii : ∀ c ∈ token.data, c.toNat < 128) (path : String) (fs : FileSys) :
    read_token_file gz path (write_token_file gz token path fs) = some token := by
  have hmap : ∀ l : List Char, (l.map Char.toNat).map (fun b => Char.ofNat b) = l := by
    intro l
    induction l with
    | nil => rfl
    | cons c t ih => simp [Char.ofNat_toNat, ih]
  cases token with
  | mk data =>
    simp [read_token_file, write_token_file, hgz, pyEncodeAscii, pyDecodeAscii,
      List.asString, hmap]

/-- Witness for C6: the identity codec and the token `"abc123"`. -/
theorem token_file_roundtrip_witness :
    read_token_file ⟨id, id⟩ ("/tmp/cfo/token")
      (write_token_file ⟨id, id⟩ ("abc123") ("/tmp/cfo/token") fun _ => none) =
      some ("abc123") :=
  token_file_roundtrip ⟨id, id⟩ (fun _ => rfl) "abc123" (by decide) "/tmp/cfo/token"
    (fun _ => none)

/-! ## `authenticate` (utils.py lines 340-389) -/

/-- The states the cached-token read can encounter: no file at
`TMP_FILE`, a file whose read raises `PermissionError`, a file whose
gzip decompression raises (corrupt data), or a readable token. -/
inductive TokenFileState where
  | absent
  | permDenied
  | corrupt
  | readable (token : String)
deriving DecidableEq

/-- What `authenticate` produces: the returned status code, the session's
`Authorization` header afterwards, and whether the interactive
credential-prompt login path ran. -/
structure AuthOut where
  status : Nat
  authHeader : Option String
  loginAttempted : Bool
deriving DecidableEq, Repr

/-- The `if login:` branch of `authenticate`: run `_auth_request`
(modelled by its result `authReq = (token, status)`); on 200 install the
`Bearer` header (Python's f-string renders a `None` token as `"None"`),
otherwise leave the session as it was.  The token-file write and
public-key side requests do not affect the returned status or header and
are not modelled. -/
def loginPath (authReq : Option String × Nat) (hdr0 : Option String) : AuthOut :=
  let (token, status) := authReq
  if status = 200 then
    { status := status
      authHeader := some ("Bearer " ++ (match token with | some t => t | none => "None"))
      loginAttempted := true }
  else
    { status := status, authHeader := hdr0, loginAttempted := true }

/-- Embedding of `API.authenticate`.  With `ignore_temp=False` the cached
token is consulted first: an absent file skips the cache
(`os.path.exists` is false), a `PermissionError` is caught and logged —
both leave `login = True` and fall through to `loginPath` — while a
readable token is installed directly (`login = False`, status 200).  A
corrupt file makes `read_token_file` raise a gzip error, which no
`except` clause catches: the call propagates the exception
(`Except.error`). -/
def authenticate (ignore_temp : Bool) (file : TokenFileState)
    (authReq : Option String × Nat) (hdr0 : Option String) : Except Unit AuthOut :=
  if ignore_temp then Except.ok (loginPath authReq hdr0)
  else
    match file with
    | .absent => Except.ok (loginPath authReq hdr0)
    | .permDenied => Except.ok (loginPath authReq hdr0)
    | .corrupt => Except.error ()
    | .readable token =>
      Except.ok
        { status := 200, authHeader := some ("Bearer " ++ token), loginAttempted := false }

/-- C3 counterexample: with a corrupt (undecompressable) token file,
`authenticate(ignore_temp=False)` does not fall through to the
credential-prompt login path — the gzip error propagates out of the call
(only `PermissionError` is caught). -/
theorem authenticate_corrupt_raises :
    authenticate false TokenFileState.corrupt (some ("tok"), 200) none =
      Except.error () := rfl

/-- C3 (amended): an absent token file and a `PermissionError` on read
both fall through to the credential-prompt login path; a corrupt file
instead raises. -/
theorem authenticate_read_failure_falls_through (authReq : Option String × Nat)
    (hdr0 : Option String) :
    authenticate false TokenFileState.absent authReq hdr0 =
      Except.ok (loginPath authReq hdr0) ∧
    authenticate false TokenFileState.permDenied authReq hdr0 =
      Except.ok (loginPath authReq hdr0) ∧
    (loginPath authReq hdr0).loginAttempted = true := by
  refine ⟨rfl, rfl, ?_⟩
  obtain ⟨token, status⟩ := authReq
  by_cases h : status = 200 <;> simp [loginPath, h]

/-! ## `auth_required` (utils.py lines 53-86) -/

/-- Python `str.startswith` on character lists. -/
def pyStartsWith : List Char → List Char → Bool
  | [], _ => true
  | _ :: _, [] => false
  | p :: ps, c :: cs => p = c && pyStartsWith ps cs

/-- Python regex `\s` (whitespace) on a character. -/
def pyIsSpace (c : Char) : Bool :=
  c = ' ' || c = '\t' || c = '\n' || c = '\r' || c = '\x0b' || c = '\x0c'

/-- Python `re.match(r"^Bearer (\S+)$", v)` as a Boolean: the literal
`"Bearer "` followed by at least one character, none of them
whitespace. -/
def bearerRegexMatch (v : String) : Bool :=
  pyStartsWith ("Bearer ").data v.data &&
    (let rest := v.data.drop 7
     (decide (rest ≠ [])) && rest.all fun c => ! pyIsSpace c)

/-- The observable outcome of a guarded call: how many authentication
attempts the gate made, whether the wrapped view ran, and the value the
wrapper returned (`Except.error` models an uncaught exception, `Option`
models Python `None`). -/
structure GateOut (α : Type) where
  attempts : Nat
  invoked : Bool
  result : Except Unit (Option α)

/-- The header checks of the `auth_required` wrapper after the
authentication step (utils.py lines 71-82): a missing `Authorization`
header would raise `KeyError`; a header that is not `Bearer`-shaped or
fails the bearer regex refuses the call with `None`; otherwise the
wrapped view runs. -/
def afterAuth {α : Type} (attempts : Nat) (hdr : Option String) (viewVal : α) :
    GateOut α :=
  match hdr with
  | none => ⟨attempts, false, Except.error ()⟩
  | some v =>
    if ¬ pyStartsWith ("Bearer ").data v.data then ⟨attempts, false, Except.ok none⟩
    else if ¬ bearerRegexMatch v then ⟨attempts, false, Except.ok none⟩
    else ⟨attempts, true, Except.ok (some viewVal)⟩

/-- Embedding of the `auth_required` decorator's wrapper.  `hdr0` is the
session's `Authorization` header before the call; `authCall` the outcome
of `self.authenticate(ignore_temp=False)` — its returned status and the
header it leaves on the session (`Except.error` if it raises); `viewVal`
the value the wrapped view would return. -/
def auth_required {α : Type} (hdr0 : Option String)
    (authCall : Except Unit (Nat × Option String)) (viewVal : α) : GateOut α :=
  match hdr0 with
  | none =>
    match authCall with
    | .error _ => ⟨1, false, .error ()⟩
    | .ok (status, hdr1) =>
      if status ≠ 200 then ⟨1, false, .ok none⟩
      else afterAuth 1 hdr1 viewVal
  | some _ => afterAuth 0 hdr0 viewVal

/-- `afterAuth` reports exactly the attempt count it is given. -/
theorem afterAuth_attempts {α : Type} (n : Nat) (hdr : Option String) (v : α) :
    (afterAuth n hdr v).attempts = n := by
  cases hdr with
  | none => rfl
  | some s =>
    simp only [afterAuth]
    split
    · rfl
    · split <;> rfl

/-- C2: a guarded call on a session with no `Authorization` header makes
exactly one authentication attempt, and whenever that attempt does not
return status 200 the wrapped operation is never invoked and the call
returns `None`. -/
theorem auth_gate_one_attempt_then_blocks {α : Type} (viewVal : α) (status : Nat)
    (hdr1 : Option String) :
    (auth_required none (Except.ok (status, hdr1)) viewVal).attempts = 1 ∧
    (status = 200 ∨
      ((auth_required none (Except.ok (status, hdr1)) viewVal).invoked = false ∧
       (auth_required none (Except.ok (status, hdr1)) viewVal).result =
         Except.ok none)) := by
  constructor
  · by_cases h : status = 200
    · simp [auth_required, h, afterAuth_attempts]
    · simp [auth_required, h]
  · by_cases h : status = 200
    · exact Or.inl h
    · exact Or.inr (by constructor <;> simp [auth_required, h])

/-! ## The six-field shape of `construct_asset_id` (claim C5) -/

/-- Both wildcard substitutions of `construct_asset_id`, composed in
source order (`"*"` first, then `"?"`). -/
def substAll (l : List Char) : List Char :=
  wildcardSubst '?' (wildcardSubst '*' l)

/-- Every character `digitChar` produces is a decimal digit, hence none
of `'-'`, `'*'`, `'?'`. -/
theorem digitChar_not_special (m : Nat) :
    digitChar m ≠ '-' ∧ digitChar m ≠ '*' ∧ digitChar m ≠ '?' := by
  unfold digitChar
  have h : m % 10 < 10 := Nat.mod_lt _ (by norm_num)
  generalize hk : m % 10 = k at h ⊢
  interval_cases k <;> exact ⟨by decide, by decide, by decide⟩

/-- All characters of a base-10 rendering are digits, hence none of
`'-'`, `'*'`, `'?'`. -/
theorem natDigits_not_special :
    ∀ fuel n, ∀ c ∈ natDigits fuel n, c ≠ '-' ∧ c ≠ '*' ∧ c ≠ '?' := by
  intro fuel
  induction fuel with
  | zero => intro n c hc; simp [natDigits] at hc
  | succ f ih =>
    intro n c hc
    rw [natDigits] at hc
    split at hc
    · rw [List.mem_singleton] at hc
      exact hc ▸ digitChar_not_special n
    · rcases List.mem_append.1 hc with h | h
      · exact ih _ c h
      · rw [List.mem_singleton] at h
        exact h ▸ digitChar_not_special n

/-- For a non-negative integer, `f"{n:0wd}"` consists of digits only. -/
theorem pyZfill_not_special (n : Int) (hn : 0 ≤ n) (w : Nat) :
    ∀ c ∈ pyZfill n w, c ≠ '-' ∧ c ≠ '*' ∧ c ≠ '?' := by
  intro c hc
  rw [pyZfill, if_neg (Int.not_lt.2 hn)] at hc
  rcases List.mem_append.1 hc with h | h
  · rw [List.eq_of_mem_replicate h]
    exact ⟨by decide, by decide, by decide⟩
  · exact natDigits_not_special _ _ c h

/-- `s.replace(find, "%")` leaves a string without `find` unchanged. -/
theorem wildcardSubst_eq_self (find : Char) (l : List Char) (h : find ∉ l) :
    wildcardSubst find l = l := by
  induction l with
  | nil => rfl
  | cons c t ih =>
    have h1 : find ∉ t := fun hf => h (List.mem_cons_of_mem _ hf)
    have h2 : ¬ c = find := fun e => h (e ▸ List.mem_cons_self c t)
    simp only [wildcardSubst, List.map_cons, if_neg h2] at *
    rw [ih h1]

/-- Characters of `s.replace(find, "%")` are `'%'` or characters of `s`. -/
theorem mem_of_wildcardSubst {c find : Char} {l : List Char}
    (hc : c ∈ wildcardSubst find l) : c = '%' ∨ c ∈ l := by
  rcases List.mem_map.1 hc with ⟨d, hd, he⟩
  by_cases hdf : d = find
  · rw [if_pos hdf] at he; exact Or.inl he.symm
  · rw [if_neg hdf] at he; exact Or.inr (he ▸ hd)

/-- The wildcard substitutions introduce no hyphen. -/
theorem noDash_substAll (l : List Char) (h : '-' ∉ l) : '-' ∉ substAll l := by
  intro hmem
  rcases mem_of_wildcardSubst hmem with he | hmem'
  · exact absurd he (by decide)
  · rcases mem_of_wildcardSubst hmem' with he | hl
    · exact absurd he (by decide)
    · exact h hl

/-- A list without `'*'` and `'?'` is unchanged by both substitutions. -/
theorem substAll_eq_self (l : List Char) (h : ∀ c ∈ l, c ≠ '*' ∧ c ≠ '?') :
    substAll l = l := by
  unfold substAll
  rw [wildcardSubst_eq_self '*' l (fun hs => (h '*' hs).1 rfl)]
  rw [wildcardSubst_eq_self '?' l (fun hs => (h '?' hs).2 rfl)]

/-- Splitting a hyphen-free string on `'-'` yields that one piece. -/
theorem splitDashChars_no_dash (a : List Char) (h : '-' ∉ a) :
    splitDashChars a = [a] := by
  induction a with
  | nil => rfl
  | cons c t ih =>
    have h1 : '-' ∉ t := fun hf => h (List.mem_cons_of_mem _ hf)
    have h2 : ¬ c = '-' := fun e => h (e ▸ List.mem_cons_self c t)
    rw [splitDashChars]
    simp only [ih h1, if_neg h2]

/-- Splitting `a + "-" + b` with hyphen-free `a` peels off `a`. -/
theorem splitDashChars_append (a b : List Char) (h : '-' ∉ a) :
    splitDashChars (a ++ '-' :: b) = a :: splitDashChars b := by
  induction a with
  | nil => simp [splitDashChars]
  | cons c t ih =>
    have h1 : '-' ∉ t := fun hf => h (List.mem_cons_of_mem _ hf)
    have h2 : ¬ c = '-' := fun e => h (e ▸ List.mem_cons_self c t)
    rw [List.cons_append, splitDashChars]
    simp only [ih h1, if_neg h2]

/-- Splitting on `'-'` inverts `"-".join` when no piece has a hyphen. -/
theorem splitDashChars_joinDash (L : List (List Char)) (hne : L ≠ [])
    (h : ∀ l ∈ L, '-' ∉ l) : splitDashChars (joinDash L) = L := by
  induction L with
  | nil => exact absurd rfl hne
  | cons x rest ih =>
    cases rest with
    | nil => exact splitDashChars_no_dash x (h x (List.mem_cons_self _ _))
    | cons y rest' =>
      show splitDashChars (x ++ '-' :: joinDash (y :: rest')) = _
      rw [splitDashChars_append x _ (h x (List.mem_cons_self _ _))]
      rw [ih (by simp) (fun l hl => h l (List.mem_cons_of_mem _ hl))]

/-- A character map fixing `'-'` distributes over `"-".join`. -/
theorem joinDash_map (f : Char → Char) (hf : f '-' = '-') (L : List (List Char)) :
    (joinDash L).map f = joinDash (L.map (List.map f)) := by
  induction L with
  | nil => rfl
  | cons x rest ih =>
    cases rest with
    | nil => rfl
    | cons y rest' =>
      show (x ++ '-' :: joinDash (y :: rest')).map f = _
      rw [List.map_append, List.map_cons, hf, ih]
      rfl

/-- The two wildcard substitutions act fieldwise on a hyphen-join. -/
theorem substAll_joinDash (L : List (List Char)) :
    wildcardSubst '?' (wildcardSubst '*' (joinDash L)) = joinDash (L.map substAll) := by
  show ((joinDash L).map _).map _ = _
  rw [joinDash_map _ (by decide) L, joinDash_map _ (by decide) (L.map _), List.map_map]
  rfl

/-- The formatted value of a string-typed field: `"%"` when unset,
otherwise the given value with `'*'` and `'?'` replaced by `'%'`. -/
def fmtField (o : Option String) : String :=
  match o with | none => "%" | some s => (substAll s.data).asString

/-- The formatted year field: `"%"` when unset, otherwise `f"{y:04d}"`. -/
def fmtYear (o : Option Int) : String :=
  match o with | none => "%" | some y => (pyZfill y 4).asString

/-- The formatted resolution field: `"%"` when unset, otherwise
`f"{r:05d}m"`. -/
def fmtRes (o : Option Int) : String :=
  match o with | none => "%" | some r => (pyZfill r 5 ++ ['m']).asString

/-- C5 counterexample: a geography containing a hyphen makes the asset id
split into seven fields, not six; and a value containing `'*'` does not
pass through unchanged — the wildcard substitution rewrites it. -/
theorem construct_asset_id_claim_false :
    splitDash (construct_asset_id (some ("a-b")) none none none none none) =
      ["a", "b", "%", "%", "%", "%", "%"] ∧
    construct_asset_id (some ("a*b")) none none none none none =
      "a%b-%-%-%-%-%" := by
  constructor <;> rfl

/-- C5 (amended): when no provided string field contains a hyphen and
year/resolution are non-negative, the asset id splits into exactly six
hyphen-joined fields: each is the formatted given value — with `'*'` and
`'?'` replaced by the SQL wildcard `'%'`, otherwise unvalidated and
unchanged — or `'%'` when unspecified. -/
theorem construct_asset_id_six_fields
    (geography category metric timeOfYear : Option String)
    (year resolution : Option Int)
    (hg : ∀ s, geography = some s → '-' ∉ s.data)
    (hc : ∀ s, category = some s → '-' ∉ s.data)
    (hm : ∀ s, metric = some s → '-' ∉ s.data)
    (ht : ∀ s, timeOfYear = some s → '-' ∉ s.data)
    (hy : ∀ n, year = some n → 0 ≤ n)
    (hr : ∀ n, resolution = some n → 0 ≤ n) :
    splitDash (construct_asset_id geography category metric year timeOfYear resolution) =
      [fmtField geography, fmtField category, fmtField metric, fmtYear year,
       fmtField timeOfYear, fmtRes resolution] := by
  have hfield : ∀ (o : Option String), (∀ s, o = some s → '-' ∉ s.data) →
      '-' ∉ substAll (optField o) ∧ (substAll (optField o)).asString = fmtField o := by
    intro o ho
    cases o with
    | none => exact ⟨by decide, rfl⟩
    | some s => exact ⟨noDash_substAll _ (ho s rfl), rfl⟩
  have hyear : ∀ (o : Option Int), (∀ n, o = some n → 0 ≤ n) →
      '-' ∉ substAll (optYear o) ∧ (substAll (optYear o)).asString = fmtYear o := by
    intro o ho
    cases o with
    | none => exact ⟨by decide, rfl⟩
    | some n =>
      have hclean := pyZfill_not_special n (ho n rfl) 4
      have heq : substAll (pyZfill n 4) = pyZfill n 4 :=
        substAll_eq_self _ (fun c hc => ⟨(hclean c hc).2.1, (hclean c hc).2.2⟩)
      refine ⟨?_, by simp [optYear, fmtYear, heq]⟩
      rw [optYear, heq]
      exact fun hmem => (hclean '-' hmem).1 rfl
  have hres : ∀ (o : Option Int), (∀ n, o = some n → 0 ≤ n) →
      '-' ∉ substAll (optRes o) ∧ (substAll (optRes o)).asString = fmtRes o := by
    intro o ho
    cases o with
    | none => exact ⟨by decide, rfl⟩
    | some n =>
      have hclean := pyZfill_not_special n (ho n rfl) 5
      have hall : ∀ c ∈ pyZfill n 5 ++ ['m'], c ≠ '-' ∧ c ≠ '*' ∧ c ≠ '?' := by
        intro c hcm
        rcases List.mem_append.1 hcm with hcm | hcm
        · exact hclean c hcm
        · rw [List.mem_singleton] at hcm
          exact hcm ▸ ⟨by decide, by decide, by decide⟩
      have heq : substAll (pyZfill n 5 ++ ['m']) = pyZfill n 5 ++ ['m'] :=
        substAll_eq_self _ (fun c hcm => ⟨(hall c hcm).2.1, (hall c hcm).2.2⟩)
      refine ⟨?_, by simp [optRes, fmtRes, heq]⟩
      rw [optRes, heq]
      exact fun hmem => (hall '-' hmem).1 rfl
  obtain ⟨hg1, hg2⟩ := hfield geography hg
  obtain ⟨hc1, hc2⟩ := hfield category hc
  obtain ⟨hm1, hm2⟩ := hfield metric hm
  obtain ⟨ht1, ht2⟩ := hfield timeOfYear ht
  obtain ⟨hy1, hy2⟩ := hyear year hy
  obtain ⟨hr1, hr2⟩ := hres resolution hr
  show (splitDashChars (wildcardSubst '?' (wildcardSubst '*' (joinDash
      [optField geography, optField category, optField metric, optYear year,
       optField timeOfYear, optRes resolution])))).map List.asString = _
  rw [substAll_joinDash]
  rw [splitDashChars_joinDash _ (by simp) ?side]
  case side =>
    intro l hl
    simp only [List.map_cons, List.map_nil, List.mem_cons, List.not_mem_nil,
      or_false] at hl
    rcases hl with rfl | rfl | rfl | rfl | rfl | rfl
    exacts [hg1, hc1, hm1, hy1, ht1, hr1]
  simp only [List.map_cons, List.map_nil]
  rw [hg2, hc2, hm2, hy2, ht2, hr2]

/-- Witness for the amended C5 at a concrete input. -/
theorem construct_asset_id_six_fields_witness :
    splitDash (construct_asset_id (some ("CA")) none none (some 2020) (some ("Fall"))
        (some 10)) =
      ["CA", "%", "%", "2020", "Fall", "00010m"] :=
  Eq.trans
    (construct_asset_id_six_fields (some ("CA")) none none (some ("Fall")) (some 2020)
      (some 10)
      (fun s hs => by cases hs; decide)
      (fun s hs => nomatch hs)
      (fun s hs => nomatch hs)
      (fun s hs => by cases hs; decide)
      (fun n hn => by cases hn; decide)
      (fun n hn => by cases hn; decide))
    (by rfl)

end CFO
